import Mathlib

/-!
Shallow embedding of `weatherbanno.go`, a small HTTP service that maps a
latitude/longitude request to a simplified weather report built from an
upstream "one call" weather API response.

Modelling conventions:
* Go slices are modelled as `Option (List α)`: `none` is a nil slice,
  `some l` a non-nil slice with elements `l` (the distinction is
  observable in `encoding/json`, which marshals a nil slice as `null`
  and a non-nil empty slice as `[]`).
* `float32`/`float64` weather values are modelled as `ℚ`; the numeric
  thresholds 277 and 297 used by the program are exactly representable
  in binary floating point, so the comparisons in the source are exact
  on the modelled values.
* Go `int64` is modelled as `Int` with explicit range checks where the
  source (via `encoding/json` / `strconv`) performs them.
-/

/-- Entry of the `weather` array of the upstream response:
`struct { Main string `json:"main"` }`. -/
structure OpenWeatherOneCallWeatherEntry where
  Main : String
deriving Repr, DecidableEq

/-- `OpenWeatherOneCallCurrentConditions`: `DT int64`, `FeelsLike float32`,
`Weather []struct{Main string}`.  The slice is `Option (List _)` with
`none` for a nil slice (the zero value). -/
structure OpenWeatherOneCallCurrentConditions where
  DT : Int
  FeelsLike : ℚ
  Weather : Option (List OpenWeatherOneCallWeatherEntry)
deriving Repr, DecidableEq

/-- `OpenWeatherOneCallAlert`: sender name, event and description strings. -/
structure OpenWeatherOneCallAlert where
  SenderName : String
  Event : String
  Description : String
deriving Repr, DecidableEq

/-- `OpenWeatherOneCallResponse`: current conditions plus a (possibly nil)
slice of alerts. -/
structure OpenWeatherOneCallResponse where
  Current : OpenWeatherOneCallCurrentConditions
  Alerts : Option (List OpenWeatherOneCallAlert)
deriving Repr, DecidableEq

/-- The zero value of `OpenWeatherOneCallResponse` (what `var respParsed
OpenWeatherOneCallResponse` starts as): zero timestamp, zero temperature,
nil slices. -/
def zeroOneCallResponse : OpenWeatherOneCallResponse :=
  { Current := { DT := 0, FeelsLike := 0, Weather := none }, Alerts := none }

/-- The elements a Go `for _, x := range s` loop sees: a nil slice ranges
over nothing. -/
def sliceElems : Option (List α) → List α
  | none => []
  | some l => l

/-- `MyWeatherResponse`, the service's output struct.  Field order matches
the Go declaration order (which fixes the JSON key order emitted by
`json.Marshal`). -/
structure MyWeatherResponse where
  Timestamp : String
  CurrentTemperatureFeel : String
  CurrentConditions : Option (List String)
  CurrentAlerts : Option (List OpenWeatherOneCallAlert)
deriving Repr, DecidableEq

/-- `GetCurrentTemperatureFeel`: `< 277.0` is "cold", otherwise `<= 297`
is "moderate", otherwise "hot". -/
def GetCurrentTemperatureFeel (respParsed : OpenWeatherOneCallResponse) : String :=
  if respParsed.Current.FeelsLike < 277 then "cold"
  else if respParsed.Current.FeelsLike ≤ 297 then "moderate"
  else "hot"

/-- `GetCurrentConditions`: `results := make([]string, 0, len(...))` (a
non-nil empty slice) then `results = append(results, w.Main)` for each
entry of `Current.Weather`, in order. -/
def GetCurrentConditions (respParsed : OpenWeatherOneCallResponse) : Option (List String) :=
  some ((sliceElems respParsed.Current.Weather).foldl
    (fun results w => results ++ [w.Main]) [])

/-- `GetCurrentAlerts`: `append(make([]OpenWeatherOneCallAlert, 0, len(a)),
a...)` — a fresh non-nil slice holding the elements of `Alerts`. -/
def GetCurrentAlerts (respParsed : OpenWeatherOneCallResponse) : Option (List OpenWeatherOneCallAlert) :=
  some ([] ++ sliceElems respParsed.Alerts)

/-- Helper for stating claims about the classifier on a bare temperature. -/
def mkFeelsResponse (fl : ℚ) : OpenWeatherOneCallResponse :=
  { Current := { DT := 0, FeelsLike := fl, Weather := none }, Alerts := none }

/-! ## Timestamp formatting

`time.Unix(dt, 0)` yields the instant `dt` seconds after the Unix epoch
carrying the process-local time zone; `Format(time.RFC3339)` renders the
civil time of that instant in that zone, with suffix "Z" when the zone
offset is zero and "+hh:mm"/"-hh:mm" otherwise.  The local zone is
modelled as a fixed offset in seconds east of UTC. -/

/-- ASCII digit character for `n < 10`. -/
def digitChar (n : Nat) : Char := Char.ofNat (48 + n)

/-- Two-digit zero-padded decimal (for month, day, hour, minute, second,
offset components, all `< 100`). -/
def pad2 (n : Nat) : String :=
  String.mk [digitChar (n / 10 % 10), digitChar (n % 10)]

/-- Four-digit zero-padded decimal (year field; the program's years of
interest lie in 0..9999). -/
def pad4 (n : Nat) : String :=
  String.mk [digitChar (n / 1000 % 10), digitChar (n / 100 % 10),
             digitChar (n / 10 % 10), digitChar (n % 10)]

/-- Civil calendar date from a count of days since 1970-01-01 (proleptic
Gregorian), as computed by Go's `time` package: returns
(year, month 1..12, day 1..31). -/
def civilFromDays (z : Int) : Int × Nat × Nat :=
  let z' := z + 719468
  let era := z'.fdiv 146097
  let doe := (z' - era * 146097).toNat
  let yoe := (doe - doe / 1460 + doe / 36524 - doe / 146096) / 365
  let doy := doe - (365 * yoe + yoe / 4 - yoe / 100)
  let mp := (5 * doy + 2) / 153
  let d := doy - (153 * mp + 2) / 5 + 1
  let m := if mp < 10 then mp + 3 else mp - 9
  (era * 400 + yoe + (if m ≤ 2 then 1 else 0), m, d)

/-- `time.Unix(dt, 0).Format(time.RFC3339)` under a local zone that is a
fixed offset of `offset` seconds east of UTC.  The suffix is "Z" exactly
when the offset is zero, per the `Z07:00` layout element. -/
def goFormatRFC3339 (dt : Int) (offset : Int) : String :=
  let local_ := dt + offset
  let days := local_.fdiv 86400
  let sod := (local_ - days * 86400).toNat
  let ymd := civilFromDays days
  let datePart := pad4 ymd.1.toNat ++ "-" ++ pad2 ymd.2.1 ++ "-" ++ pad2 ymd.2.2
  let timePart := pad2 (sod / 3600) ++ ":" ++ pad2 (sod / 60 % 60) ++ ":" ++ pad2 (sod % 60)
  let zonePart :=
    if offset = 0 then "Z"
    else (if offset < 0 then "-" else "+")
      ++ pad2 (offset.natAbs / 3600) ++ ":" ++ pad2 (offset.natAbs / 60 % 60)
  datePart ++ "T" ++ timePart ++ zonePart

/-! ## Struct tags and `json.Marshal` key names

`reflect.StructTag.Lookup` scans `key:"value"` pairs; a value whose
closing quote is missing makes the lookup fail, in which case
`encoding/json` falls back to the Go field name.  The tag literals below
are copied from the source, including the missing closing quote on the
`CurrentTemperatureFeel` tag. -/

/-- Character class Go's tag scanner accepts in a tag key: anything above
space except `:`, `"` and DEL. -/
def tagKeyChar (c : Char) : Bool :=
  32 < c.toNat && c.toNat != 58 && c.toNat != 34 && c.toNat != 127

/-- Scan a quoted tag value after its opening quote: returns the value
characters and the remaining characters after the closing quote, or
`none` when the closing quote is missing.  (Escape pairs are carried
through verbatim; the tags in this source contain none.) -/
def scanTagValue : List Char → Option (List Char × List Char)
  | [] => none
  | '"' :: rest => some ([], rest)
  | '\\' :: c :: rest =>
      match scanTagValue rest with
      | none => none
      | some (v, r) => some ('\\' :: c :: v, r)
  | c :: rest =>
      match scanTagValue rest with
      | none => none
      | some (v, r) => some (c :: v, r)

/-- One pass of `reflect.StructTag.Lookup`, with fuel bounding the number
of `key:"value"` pairs scanned. -/
def structTagLookup : Nat → List Char → String → Option String
  | 0, _, _ => none
  | fuel + 1, tag, key =>
    let tag' := tag.dropWhile (· = ' ')
    let name := tag'.takeWhile tagKeyChar
    let rest := tag'.dropWhile tagKeyChar
    if name.isEmpty then none
    else match rest with
      | ':' :: '"' :: r =>
          match scanTagValue r with
          | none => none
          | some (v, rest2) =>
              if String.mk name = key then some (String.mk v)
              else structTagLookup fuel rest2 key
      | _ => none

/-- `reflect.StructTag.Get`: the looked-up value, or "" when absent or
malformed. -/
def structTagGet (tag key : String) : String :=
  (structTagLookup (tag.data.length + 1) tag.data key).getD ""

/-- Characters `encoding/json` accepts in a tag name besides letters and
digits. -/
def jsonTagPunct : List Char :=
  ['!', '#', '$', '%', '&', '(', ')', '*', '+', '-', '.', '/', ':',
   '<', '=', '>', '?', '@', '[', ']', '^', '_', '|', '~', ' ']

/-- `encoding/json`'s `isValidTag`. -/
def isValidJsonTagName (s : String) : Bool :=
  !s.isEmpty && s.data.all (fun c => c.isAlphanum || jsonTagPunct.contains c)

/-- The JSON key `encoding/json` uses for a struct field: the name part of
the `json` tag when present and valid, otherwise the Go field name. -/
def jsonFieldName (goName tag : String) : String :=
  let t := structTagGet tag "json"
  let name := String.mk (t.data.takeWhile (· ≠ ','))
  if isValidJsonTagName name then name else goName

/-- Struct tags of `MyWeatherResponse`, verbatim from the source.  The
`CurrentTemperatureFeel` tag lacks its closing quote. -/
def timestampTag : String := ""

def currentTemperatureFeelTag : String := "json:\"current_temperature_feel"

def currentConditionsTag : String := "json:\"current_conditions\""

def currentAlertsTag : String := "json:\"alerts\""

/-- Struct tags of `OpenWeatherOneCallAlert`. -/
def senderNameTag : String := "json:\"sender_name\""

def eventTag : String := "json:\"event\""

def descriptionTag : String := "json:\"description\""

/-- Hex digit for `\u00xx` escapes (lowercase, as Go emits). -/
def hexDigitChar (n : Nat) : Char :=
  if n < 10 then Char.ofNat (48 + n) else Char.ofNat (87 + n)

/-- `encoding/json` string escaping (default HTML-escaping encoder): `"`,
`\\`, the HTML characters and control characters are escaped; everything
else is copied verbatim. -/
def escapeJsonChar (c : Char) : List Char :=
  if c = '"' then ['\\', '"']
  else if c = '\\' then ['\\', '\\']
  else if c = '<' || c = '>' || c = '&' then
    ['\\', 'u', '0', '0', hexDigitChar (c.toNat / 16), hexDigitChar (c.toNat % 16)]
  else if c.toNat < 32 then
    if c = '\n' then ['\\', 'n']
    else if c = '\r' then ['\\', 'r']
    else if c = '\t' then ['\\', 't']
    else ['\\', 'u', '0', '0', hexDigitChar (c.toNat / 16), hexDigitChar (c.toNat % 16)]
  else [c]

/-- A JSON string literal for `s`. -/
def jsonQuote (s : String) : String :=
  "\"" ++ String.mk (s.data.flatMap escapeJsonChar) ++ "\""

/-- Marshal a Go `[]string`: nil is `null`, otherwise a JSON array of
string literals. -/
def marshalStringSlice : Option (List String) → String
  | none => "null"
  | some l => "[" ++ String.intercalate "," (l.map jsonQuote) ++ "]"

/-- Marshal one `OpenWeatherOneCallAlert` (tags well-formed, so keys come
from the tags). -/
def marshalAlert (a : OpenWeatherOneCallAlert) : String :=
  "\x7b" ++ jsonQuote (jsonFieldName "SenderName" senderNameTag) ++ ":" ++ jsonQuote a.SenderName
    ++ "," ++ jsonQuote (jsonFieldName "Event" eventTag) ++ ":" ++ jsonQuote a.Event
    ++ "," ++ jsonQuote (jsonFieldName "Description" descriptionTag) ++ ":" ++ jsonQuote a.Description
    ++ "\x7d"

/-- Marshal a Go `[]OpenWeatherOneCallAlert`. -/
def marshalAlertSlice : Option (List OpenWeatherOneCallAlert) → String
  | none => "null"
  | some l => "[" ++ String.intercalate "," (l.map marshalAlert) ++ "]"

/-- `json.Marshal` of a `MyWeatherResponse` value: fields in declaration
order, each keyed by `jsonFieldName` of its Go name and tag. -/
def marshalMyWeatherResponse (m : MyWeatherResponse) : String :=
  "\x7b" ++ jsonQuote (jsonFieldName "Timestamp" timestampTag) ++ ":" ++ jsonQuote m.Timestamp
    ++ "," ++ jsonQuote (jsonFieldName "CurrentTemperatureFeel" currentTemperatureFeelTag)
      ++ ":" ++ jsonQuote m.CurrentTemperatureFeel
    ++ "," ++ jsonQuote (jsonFieldName "CurrentConditions" currentConditionsTag)
      ++ ":" ++ marshalStringSlice m.CurrentConditions
    ++ "," ++ jsonQuote (jsonFieldName "CurrentAlerts" currentAlertsTag)
      ++ ":" ++ marshalAlertSlice m.CurrentAlerts
    ++ "\x7d"

/-- The `MyWeatherResponse` literal the handler builds from a parsed
upstream response, under local-zone offset `offset`. -/
def buildMyWeatherResponse (respParsed : OpenWeatherOneCallResponse) (offset : Int) :
    MyWeatherResponse :=
  { Timestamp := goFormatRFC3339 respParsed.Current.DT offset
    CurrentTemperatureFeel := GetCurrentTemperatureFeel respParsed
    CurrentConditions := GetCurrentConditions respParsed
    CurrentAlerts := GetCurrentAlerts respParsed }

/-! ## JSON values and `json.Unmarshal` into `OpenWeatherOneCallResponse`

The upstream body is modelled at the level of parsed JSON values: a
number literal is kept as mantissa and decimal exponent (`n * 10 ^ e10`),
which preserves the distinctions `encoding/json` observes (a literal
with a fractional part or exponent cannot decode into an `int64` field).
An undecodable (syntactically invalid) body is represented separately in
the handler model.  Decoding follows `encoding/json`: object keys match
struct fields by tag name, exactly or case-insensitively (ASCII folding
suffices for this program's keys); unknown keys are skipped; `null`
leaves the target unchanged; a type or range mismatch records an error
but decoding continues, and `Unmarshal` reports the recorded error. -/

inductive Json where
  | null
  | bool (b : Bool)
  | num (n : Int) (e10 : Int)
  | str (s : String)
  | arr (elems : List Json)
  | obj (fields : List (String × Json))

/-- ASCII case folding used for field-name matching. -/
def asciiFoldChar (c : Char) : Char :=
  if 65 ≤ c.toNat ∧ c.toNat ≤ 90 then Char.ofNat (c.toNat + 32) else c

def asciiFold (s : String) : String := String.mk (s.data.map asciiFoldChar)

/-- `encoding/json` key matching: exact, else case-insensitive. -/
def jsonKeyMatches (key name : String) : Bool :=
  key = name || asciiFold key = asciiFold name

/-- Largest-magnitude decimal that still rounds into `float64`: values
with magnitude `≥ 2^1024 - 2^970` round to infinity (round to nearest,
ties to even). -/
def float64Bound : Nat := 2 ^ 1024 - 2 ^ 970

/-- The `float32` analogue: magnitude `≥ 2^128 - 2^103` rounds to
infinity. -/
def float32Bound : Nat := 2 ^ 128 - 2 ^ 103

/-- `bound ≤ |n| * 10 ^ e10`, computed in integers. -/
def decOverflow (bound : Nat) (n : Int) (e10 : Int) : Bool :=
  if 0 ≤ e10 then bound ≤ n.natAbs * 10 ^ e10.toNat
  else bound * 10 ^ (-e10).toNat ≤ n.natAbs

/-- `0 < |n| * 10 ^ e10 ≤ 2 ^ (-ulpPow)`: a nonzero decimal that rounds
to zero (`ulpPow = 1075` for `float64`, `150` for `float32`). -/
def decUnderflow (ulpPow : Nat) (n : Int) (e10 : Int) : Bool :=
  n != 0 &&
    (if 0 ≤ e10 then n.natAbs * 10 ^ e10.toNat * 2 ^ ulpPow ≤ 1
     else n.natAbs * 2 ^ ulpPow ≤ 10 ^ (-e10).toNat)

/-- The rational value of the decimal `n * 10 ^ e10`. -/
def decNumValue (n : Int) (e10 : Int) : ℚ :=
  if 0 ≤ e10 then (n : ℚ) * 10 ^ e10.toNat else (n : ℚ) / 10 ^ (-e10).toNat

/-- Decode a JSON value into a `string` field: strings store, `null` is a
no-op, anything else is a type error leaving the field unchanged. -/
def decodeStringField (cur : String) : Json → String × Bool
  | .str s => (s, false)
  | .null => (cur, false)
  | _ => (cur, true)

/-- Decode into an `int64` field: only integer literals in `int64` range
succeed (a fractional part or exponent makes `strconv.ParseInt` fail on
the literal text). -/
def decodeInt64Field (cur : Int) : Json → Int × Bool
  | .num n e10 =>
      if e10 = 0 && -(2 ^ 63 : Int) ≤ n && n < 2 ^ 63 then (n, false) else (cur, true)
  | .null => (cur, false)
  | _ => (cur, true)

/-- Decode into a `float32` field: number literals whose value fits
`float32` (per `strconv.ParseFloat(s, 32)`) succeed; out-of-range values
are range errors. -/
def decodeFloat32Field (cur : ℚ) : Json → ℚ × Bool
  | .num n e10 =>
      if decOverflow float32Bound n e10 || decUnderflow 150 n e10 then (cur, true)
      else (decNumValue n e10, false)
  | .null => (cur, false)
  | _ => (cur, true)

/-- Decode one entry of the `weather` array (`struct{ Main string }`). -/
def decodeWeatherEntry (cur : OpenWeatherOneCallWeatherEntry) :
    Json → OpenWeatherOneCallWeatherEntry × Bool
  | .obj fields =>
      fields.foldl
        (fun acc kv =>
          if jsonKeyMatches kv.1 "main" then
            let r := decodeStringField acc.1.Main kv.2
            ({ Main := r.1 }, acc.2 || r.2)
          else acc)
        (cur, false)
  | .null => (cur, false)
  | _ => (cur, true)

/-- Decode into the `[]struct{ Main string }` slice: an array yields a
fresh non-nil slice, `null` stores a nil slice, anything else is a type
error. -/
def decodeWeatherSlice : Json → Option (List OpenWeatherOneCallWeatherEntry) × Bool
  | .arr elems =>
      let r := elems.foldl
        (fun acc el =>
          let d := decodeWeatherEntry { Main := "" } el
          (acc.1 ++ [d.1], acc.2 || d.2))
        ([], false)
      (some r.1, r.2)
  | .null => (none, false)
  | _ => (none, true)

/-- Decode one `OpenWeatherOneCallAlert`. -/
def decodeAlert (cur : OpenWeatherOneCallAlert) : Json → OpenWeatherOneCallAlert × Bool
  | .obj fields =>
      fields.foldl
        (fun acc kv =>
          if jsonKeyMatches kv.1 "sender_name" then
            let r := decodeStringField acc.1.SenderName kv.2
            ({ acc.1 with SenderName := r.1 }, acc.2 || r.2)
          else if jsonKeyMatches kv.1 "event" then
            let r := decodeStringField acc.1.Event kv.2
            ({ acc.1 with Event := r.1 }, acc.2 || r.2)
          else if jsonKeyMatches kv.1 "description" then
            let r := decodeStringField acc.1.Description kv.2
            ({ acc.1 with Description := r.1 }, acc.2 || r.2)
          else acc)
        (cur, false)
  | .null => (cur, false)
  | _ => (cur, true)

def zeroAlert : OpenWeatherOneCallAlert :=
  { SenderName := "", Event := "", Description := "" }

/-- Decode into the `[]OpenWeatherOneCallAlert` slice. -/
def decodeAlertSlice : Json → Option (List OpenWeatherOneCallAlert) × Bool
  | .arr elems =>
      let r := elems.foldl
        (fun acc el =>
          let d := decodeAlert zeroAlert el
          (acc.1 ++ [d.1], acc.2 || d.2))
        ([], false)
      (some r.1, r.2)
  | .null => (none, false)
  | _ => (none, true)

/-- Decode the `current` object (`dt`, `feels_like`, `weather`). -/
def decodeCurrent (cur : OpenWeatherOneCallCurrentConditions) :
    Json → OpenWeatherOneCallCurrentConditions × Bool
  | .obj fields =>
      fields.foldl
        (fun acc kv =>
          if jsonKeyMatches kv.1 "dt" then
            let r := decodeInt64Field acc.1.DT kv.2
            ({ acc.1 with DT := r.1 }, acc.2 || r.2)
          else if jsonKeyMatches kv.1 "feels_like" then
            let r := decodeFloat32Field acc.1.FeelsLike kv.2
            ({ acc.1 with FeelsLike := r.1 }, acc.2 || r.2)
          else if jsonKeyMatches kv.1 "weather" then
            let r := decodeWeatherSlice kv.2
            ({ acc.1 with Weather := r.1 }, acc.2 || r.2)
          else acc)
        (cur, false)
  | .null => (cur, false)
  | _ => (cur, true)

/-- One step of the top-level object decode: route one key/value pair into
the matching field of the accumulated response, or skip it. -/
def unmarshalOneCallStep (acc : OpenWeatherOneCallResponse × Bool)
    (kv : String × Json) : OpenWeatherOneCallResponse × Bool :=
  if jsonKeyMatches kv.1 "current" then
    let r := decodeCurrent acc.1.Current kv.2
    ({ acc.1 with Current := r.1 }, acc.2 || r.2)
  else if jsonKeyMatches kv.1 "alerts" then
    let r := decodeAlertSlice kv.2
    ({ acc.1 with Alerts := r.1 }, acc.2 || r.2)
  else acc

/-- `json.Unmarshal(respBody, &respParsed)` on a syntactically valid JSON
value: `null` is a no-op on the zero value, an object decodes field-wise
(first recorded error reported at the end), any other value is a type
error. -/
def unmarshalOneCall (j : Json) : Except Unit OpenWeatherOneCallResponse :=
  match j with
  | .null => .ok zeroOneCallResponse
  | .obj fields =>
      let r := fields.foldl unmarshalOneCallStep (zeroOneCallResponse, false)
      if r.2 then .error () else .ok r.1
  | _ => .error ()

/-- A key unmatched by every field of `OpenWeatherOneCallResponse`. -/
def unknownTopLevelKey (k : String) : Prop :=
  jsonKeyMatches k "current" = false ∧ jsonKeyMatches k "alerts" = false

instance (k : String) : Decidable (unknownTopLevelKey k) := by
  unfold unknownTopLevelKey; infer_instance

/-! ## The `/weather` handler and route

The handler's upstream interaction is summarised by an `UpstreamResult`:
either the `http.Get`/body-read fails (both panic through `panicIfErr`,
producing the recovered 500), or a response arrives with some status
code and a body that is or is not syntactically valid JSON.  The status
code is carried in the model because the source receives it — and,
notably, never inspects it. -/

inductive UpstreamResult where
  | netErr
  | resp (status : Nat) (body : Option Json)

structure HandlerResult where
  status : Nat
  body : String
deriving Repr, DecidableEq

/-- The `/weather` handler body after lat/lon extraction: panics on
upstream or decode failure are recovered into
`http.Error(w, http.StatusText(500), 500)` (status text plus newline);
on success the marshalled report is written with the implicit 200. -/
def weatherHandler (u : UpstreamResult) (offset : Int) : HandlerResult :=
  match u with
  | .netErr => ⟨500, "Internal Server Error\n"⟩
  | .resp _ none => ⟨500, "Internal Server Error\n"⟩
  | .resp _ (some j) =>
      match unmarshalOneCall j with
      | .error _ => ⟨500, "Internal Server Error\n"⟩
      | .ok respParsed =>
          ⟨200, marshalMyWeatherResponse (buildMyWeatherResponse respParsed offset)⟩

/-! ## `strconv.ParseFloat` and the route pattern -/

def isDigitChar (c : Char) : Bool := 48 ≤ c.toNat && c.toNat ≤ 57

/-- Split a maximal run of ASCII digits off the front. -/
def splitDigits (cs : List Char) : List Char × List Char :=
  (cs.takeWhile isDigitChar, cs.dropWhile isDigitChar)

/-- Numeric value of a digit run. -/
def digitsVal (ds : List Char) : Nat :=
  ds.foldl (fun a c => a * 10 + (c.toNat - 48)) 0

/-- Strip an optional leading sign, reporting whether it was `-`. -/
def takeSign : List Char → Bool × List Char
  | '-' :: r => (true, r)
  | '+' :: r => (false, r)
  | cs => (false, cs)

def signedVal (neg : Bool) (n : Nat) : Int :=
  if neg then -(n : Int) else (n : Int)

/-- The chi route pattern `[-+]?[0-9]+(?:\.[0-9]+)?`, anchored to the
whole path segment (chi compiles segment regexes with `^`/`$`). -/
def matchesCoordPattern (s : String) : Bool :=
  let rest := (takeSign s.data).2
  let p := splitDigits rest
  !p.1.isEmpty &&
    (match p.2 with
     | [] => true
     | '.' :: r2 =>
         let q := splitDigits r2
         !q.1.isEmpty && q.2.isEmpty
     | _ => false)

/-- Exponent suffix of a float literal: optional sign, then at least one
digit consuming the rest of the input. -/
def readExponent (mant : Int) (e0 : Int) (cs : List Char) : Option (Int × Int) :=
  let sp := takeSign cs
  let p := splitDigits sp.2
  if p.1.isEmpty || !p.2.isEmpty then none
  else some (mant, e0 + signedVal sp.1 (digitsVal p.1))

/-- `strconv`'s `readFloat` on the decimal forms: optional sign, digits
with at most one decimal point and at least one digit overall, optional
exponent.  The result is the literal's exact value as mantissa and
decimal exponent.  (The special forms `Inf`/`NaN`, hex floats and digit
underscores are omitted: no claim depends on them, and none of them can
match the route pattern.) -/
def readFloat (s : String) : Option (Int × Int) :=
  let sp := takeSign s.data
  let p := splitDigits sp.2
  match p.2 with
  | [] => if p.1.isEmpty then none else some (signedVal sp.1 (digitsVal p.1), 0)
  | '.' :: r2 =>
      let q := splitDigits r2
      if p.1.isEmpty && q.1.isEmpty then none
      else
        let mant := signedVal sp.1 (digitsVal (p.1 ++ q.1))
        let e0 : Int := -(q.1.length : Int)
        match q.2 with
        | [] => some (mant, e0)
        | c :: r4 => if c = 'e' || c = 'E' then readExponent mant e0 r4 else none
  | c :: r4 =>
      if (c = 'e' || c = 'E') && !p.1.isEmpty then
        readExponent (signedVal sp.1 (digitsVal p.1)) 0 r4
      else none

inductive ParseFloatError where
  | malformed
  | outOfRange
deriving Repr, DecidableEq

/-- `strconv.ParseFloat(s, 64)` as seen through `err`: a syntax failure,
a range failure (the decimal's value rounds to `±Inf` or to zero from a
nonzero literal), or success with the literal's exact decimal value. -/
def goParseFloat (s : String) : Except ParseFloatError (Int × Int) :=
  match readFloat s with
  | none => .error .malformed
  | some p =>
      if decOverflow float64Bound p.1 p.2 || decUnderflow 1075 p.1 p.2 then
        .error .outOfRange
      else .ok p

structure RouteResult where
  status : Nat
  body : String
  upstreamCalled : Bool
deriving Repr, DecidableEq

/-- Dispatch of `GET /weather/lat/{latSeg}/lon/{lonSeg}`: a segment that
fails the route pattern means the route does not match and chi's default
not-found handler answers 404; otherwise `latLonContext` parses both
segments (a `ParseFloat` error panics into the recovered 400 before any
upstream call) and the handler body runs. -/
def weatherRoute (latSeg lonSeg : String) (u : UpstreamResult) (offset : Int) : RouteResult :=
  if matchesCoordPattern latSeg && matchesCoordPattern lonSeg then
    match goParseFloat latSeg with
    | .error _ => ⟨400, "Bad Request\n", false⟩
    | .ok _ =>
        match goParseFloat lonSeg with
        | .error _ => ⟨400, "Bad Request\n", false⟩
        | .ok _ =>
            let h := weatherHandler u offset
            ⟨h.status, h.body, true⟩
  else ⟨404, "404 page not found\n", false⟩

/-! ## Process startup -/

inductive StartupResult where
  | fatalExit (stderrMsg : String) (exitCode : Nat)
  | serveHTTP (port : Nat)
deriving Repr, DecidableEq

/-- `main`'s startup gate: `os.Getenv` yields "" for an absent variable;
an empty key writes the diagnostic to standard error and calls
`os.Exit(1)` before any router or server is created. -/
def mainStartup (getenv : String → String) : StartupResult :=
  if getenv "OPENWEATHERMAP_API_KEY" = "" then
    .fatalExit "Missing required environment variable OPENWEATHERMAP_API_KEY\n" 1
  else .serveHTTP 8080

/-- A pattern-matching segment whose value overflows `float64`: the digit
`1` followed by 309 zeros (value `10 ^ 309`). -/
def overflowSeg : String := String.mk ('1' :: List.replicate 309 '0')

/-- The stubbed upstream snapshot of the spec's end-to-end example:
`{current:{dt:1684000000, feels_like:300.0, weather:[{main:"Clear"}]}, alerts:[]}`
after decoding. -/
def endToEndSnapshot : OpenWeatherOneCallResponse :=
  { Current := { DT := 1684000000, FeelsLike := 300, Weather := some [{ Main := "Clear" }] }
    Alerts := some [] }

/-- A typical upstream error body sent with a non-2xx status code, e.g.
`{"cod":401,"message":"Invalid API key"}`. -/
def apiErrorBody : Json :=
  .obj [("cod", .num 401 0), ("message", .str "Invalid API key")]

theorem foldl_append_singleton (l : List OpenWeatherOneCallWeatherEntry)
    (acc : List String) :
    l.foldl (fun results w => results ++ [w.Main]) acc
      = acc ++ l.map OpenWeatherOneCallWeatherEntry.Main := by
  induction l generalizing acc with
  | nil => simp
  | cons x xs ih => simp [List.foldl_cons, ih]

/-- C1: `GetCurrentTemperatureFeel` classifies every feels-like value into
exactly three buckets with inclusive moderate boundaries: `< 277` is
"cold", `277 ≤ v ≤ 297` is "moderate" (both boundary values included),
`> 297` is "hot". -/
theorem getCurrentTemperatureFeel_three_buckets (r : OpenWeatherOneCallResponse) :
    (r.Current.FeelsLike < 277 → GetCurrentTemperatureFeel r = "cold") ∧
    (277 ≤ r.Current.FeelsLike ∧ r.Current.FeelsLike ≤ 297 →
      GetCurrentTemperatureFeel r = "moderate") ∧
    (297 < r.Current.FeelsLike → GetCurrentTemperatureFeel r = "hot") := by
  refine ⟨fun h => ?_, fun h => ?_, fun h => ?_⟩
  · simp [GetCurrentTemperatureFeel, h]
  · simp [GetCurrentTemperatureFeel, not_lt.mpr h.1, h.2]
  · have h1 : ¬ r.Current.FeelsLike < 277 := by linarith
    have h2 : ¬ r.Current.FeelsLike ≤ 297 := by linarith
    simp [GetCurrentTemperatureFeel, h1, h2]

/-- Witness for C1 at the boundary and interior points 270, 277, 297, 300. -/
theorem getCurrentTemperatureFeel_three_buckets_witness :
    GetCurrentTemperatureFeel (mkFeelsResponse 270) = "cold" ∧
    GetCurrentTemperatureFeel (mkFeelsResponse 277) = "moderate" ∧
    GetCurrentTemperatureFeel (mkFeelsResponse 297) = "moderate" ∧
    GetCurrentTemperatureFeel (mkFeelsResponse 300) = "hot" :=
  ⟨(getCurrentTemperatureFeel_three_buckets (mkFeelsResponse 270)).1 (by norm_num [mkFeelsResponse]),
   (getCurrentTemperatureFeel_three_buckets (mkFeelsResponse 277)).2.1 (by norm_num [mkFeelsResponse]),
   (getCurrentTemperatureFeel_three_buckets (mkFeelsResponse 297)).2.1 (by norm_num [mkFeelsResponse]),
   (getCurrentTemperatureFeel_three_buckets (mkFeelsResponse 300)).2.2 (by norm_num [mkFeelsResponse])⟩

/-- C6: condition extraction returns a present (non-nil) sequence with one
entry per upstream `weather` entry, in order; an empty upstream sequence
yields an empty, present output sequence. -/
theorem getCurrentConditions_positional_map (r : OpenWeatherOneCallResponse) :
    GetCurrentConditions r
      = some ((sliceElems r.Current.Weather).map OpenWeatherOneCallWeatherEntry.Main) ∧
    (sliceElems r.Current.Weather = [] → GetCurrentConditions r = some []) := by
  constructor
  · simp [GetCurrentConditions, foldl_append_singleton]
  · intro h
    simp [GetCurrentConditions, h]

/-- Witness for C6: an empty upstream conditions sequence yields `some []`. -/
theorem getCurrentConditions_positional_map_witness :
    GetCurrentConditions zeroOneCallResponse = some [] :=
  (getCurrentConditions_positional_map zeroOneCallResponse).2 rfl

/-- C7: alert extraction is a positional, verbatim copy of the upstream
alerts sequence into a fresh non-nil slice; empty input yields an empty
output sequence. -/
theorem getCurrentAlerts_positional_copy (r : OpenWeatherOneCallResponse) :
    GetCurrentAlerts r = some (sliceElems r.Alerts) ∧
    (sliceElems r.Alerts = [] → GetCurrentAlerts r = some []) := by
  constructor
  · simp [GetCurrentAlerts]
  · intro h
    simp [GetCurrentAlerts, h]

/-- Witness for C7: an empty upstream alerts sequence yields `some []`. -/
theorem getCurrentAlerts_positional_copy_witness :
    GetCurrentAlerts zeroOneCallResponse = some [] :=
  (getCurrentAlerts_positional_copy zeroOneCallResponse).2 rfl

/-- C2 counterexample: under a UTC local zone (the most favourable case
for the claim), epoch seconds 1684000000 format as "2023-05-13T17:46:40Z",
not the claimed "2023-05-13T16:26:40Z". -/
theorem timestamp_epoch_example_mismatch :
    goFormatRFC3339 1684000000 0 = "2023-05-13T17:46:40Z" ∧
    goFormatRFC3339 1684000000 0 ≠ "2023-05-13T16:26:40Z" := by
  constructor
  · rfl
  · decide

/-- C2 (amended): the handler formats exactly the upstream epoch-seconds
value — no request-time adjustment — through the process-local zone, and
with a UTC local zone epoch 1684000000 maps exactly to
"2023-05-13T17:46:40Z". -/
theorem timestamp_format_utc_correct (r : OpenWeatherOneCallResponse) (offset : Int) :
    (buildMyWeatherResponse r offset).Timestamp = goFormatRFC3339 r.Current.DT offset ∧
    goFormatRFC3339 1684000000 0 = "2023-05-13T17:46:40Z" :=
  ⟨rfl, rfl⟩

/-- C3 (code bug): because the struct tag of `CurrentTemperatureFeel`
lacks its closing quote, `reflect` rejects the tag and `json.Marshal`
falls back to the Go field name, so a 200 body carries the key
"CurrentTemperatureFeel" instead of "current_temperature_feel". -/
theorem marshal_emits_go_field_name_for_feel :
    jsonFieldName "CurrentTemperatureFeel" currentTemperatureFeelTag
      = "CurrentTemperatureFeel" ∧
    marshalMyWeatherResponse (buildMyWeatherResponse endToEndSnapshot 0) =
      "\x7b\"Timestamp\":\"2023-05-13T17:46:40Z\",\"CurrentTemperatureFeel\":\"hot\",\"current_conditions\":[\"Clear\"],\"alerts\":[]\x7d" := by
  constructor
  · rfl
  · rfl

/-- C4 counterexample: a malformed lat segment fails the route pattern, so
the request answers 404 (chi's not-found), not the claimed 400; no
upstream call is made. -/
theorem malformed_segment_yields_404_not_400 :
    (weatherRoute "abc" "1.0" (.resp 200 (some (.obj []))) 0).status ≠ 400 ∧
    weatherRoute "abc" "1.0" (.resp 200 (some (.obj []))) 0
      = ⟨404, "404 page not found\n", false⟩ := by
  constructor
  · decide
  · rfl

/-- C4 (amended): a request to the weather route with a lat or lon path
segment that fails the route's numeric pattern never matches the route:
the router responds 404 with the generic not-found text and no upstream
call is made. -/
theorem malformed_segment_no_match_404_no_upstream
    (latSeg lonSeg : String) (u : UpstreamResult) (offset : Int)
    (h : (matchesCoordPattern latSeg && matchesCoordPattern lonSeg) = false) :
    weatherRoute latSeg lonSeg u offset = ⟨404, "404 page not found\n", false⟩ := by
  simp only [weatherRoute, h, Bool.false_eq_true, if_false]

/-- Witness for C4 at the malformed segment "abc". -/
theorem malformed_segment_no_match_404_no_upstream_witness :
    weatherRoute "abc" "1.0" .netErr 0 = ⟨404, "404 page not found\n", false⟩ :=
  malformed_segment_no_match_404_no_upstream "abc" "1.0" .netErr 0 (by decide)

/-- C5 counterexample: a non-2xx upstream response whose body is decodable
JSON is not treated as a failure — the handler never inspects the status
code — and yields HTTP 200 with a zero-value report, not the claimed 500. -/
theorem non2xx_decodable_yields_200 :
    (weatherHandler (.resp 401 (some apiErrorBody)) 0).status = 200 ∧
    (weatherHandler (.resp 401 (some apiErrorBody)) 0).status ≠ 500 := by
  constructor
  · rfl
  · decide

/-- C5 (amended): an upstream network failure or an undecodable response
body makes the handler respond 500 whose entire body is the generic
status text (so no internal error detail reaches the client); a non-2xx
upstream response with a decodable JSON body is not detected and is
processed as a success. -/
theorem upstream_netfail_or_undecodable_500_generic (st : Nat) (offset : Int) :
    weatherHandler .netErr offset = ⟨500, "Internal Server Error\n"⟩ ∧
    weatherHandler (.resp st none) offset = ⟨500, "Internal Server Error\n"⟩ :=
  ⟨rfl, rfl⟩

theorem unmarshalOneCallStep_unknown (acc : OpenWeatherOneCallResponse × Bool)
    (kv : String × Json) (h : unknownTopLevelKey kv.1) :
    unmarshalOneCallStep acc kv = acc := by
  simp only [unmarshalOneCallStep, h.1, h.2, Bool.false_eq_true, if_false]

theorem foldl_unknown_keys (fields : List (String × Json))
    (acc : OpenWeatherOneCallResponse × Bool)
    (h : ∀ kv ∈ fields, unknownTopLevelKey kv.1) :
    fields.foldl unmarshalOneCallStep acc = acc := by
  induction fields generalizing acc with
  | nil => rfl
  | cons kv rest ih =>
      rw [List.foldl_cons, unmarshalOneCallStep_unknown acc kv (h kv (by simp))]
      exact ih acc (fun kv' hkv' => h kv' (by simp [hkv']))

/-- C8: unmarshalling an upstream JSON object none of whose keys matches a
struct field succeeds and leaves every field at its zero value — zero
timestamp, zero feels-like temperature, nil condition and alert slices —
so unknown fields are ignored and absent fields default rather than
failing. -/
theorem unmarshal_permissive_unknown_and_missing (fields : List (String × Json))
    (h : ∀ kv ∈ fields, unknownTopLevelKey kv.1) :
    unmarshalOneCall (.obj fields) = .ok zeroOneCallResponse := by
  simp only [unmarshalOneCall, foldl_unknown_keys fields _ h]
  rfl

/-- Witness for C8: an object holding only unmatched keys decodes to the
zero response. -/
theorem unmarshal_permissive_unknown_and_missing_witness :
    unmarshalOneCall (.obj [("lat", .num 33 0), ("lon", .num (-94) 0), ("foo", .str "x")])
      = .ok zeroOneCallResponse :=
  unmarshal_permissive_unknown_and_missing _ (by decide)

/-- C9: when the API key variable is absent from (or empty in) the process
environment, startup writes the diagnostic to standard error and exits
with code 1; no HTTP server is started. -/
theorem startup_missing_api_key_fatal (getenv : String → String)
    (h : getenv "OPENWEATHERMAP_API_KEY" = "") :
    mainStartup getenv
      = .fatalExit "Missing required environment variable OPENWEATHERMAP_API_KEY\n" 1 := by
  simp only [mainStartup, h, if_true]

/-- Witness for C9 at the empty environment. -/
theorem startup_missing_api_key_fatal_witness :
    mainStartup (fun _ => "")
      = .fatalExit "Missing required environment variable OPENWEATHERMAP_API_KEY\n" 1 :=
  startup_missing_api_key_fatal (fun _ => "") rfl


theorem coordPattern_readFloat_isSome (s : String)
    (h : matchesCoordPattern s = true) : (readFloat s).isSome = true := by
  simp only [matchesCoordPattern, Bool.and_eq_true, Bool.not_eq_true'] at h
  obtain ⟨h1, h2⟩ := h
  simp only [readFloat]
  split at h2
  · next heq =>
      rw [heq]
      simp [h1]
  · next r2 heq =>
      rw [heq]
      simp only [Bool.and_eq_true, Bool.not_eq_true'] at h2
      obtain ⟨h3, h4⟩ := h2
      rw [List.isEmpty_iff] at h4
      simp [h1, h3, h4]
  · exact absurd h2 (by simp)

set_option maxRecDepth 8000 in
/-- C10 counterexample: the 310-digit segment `overflowSeg` matches the
route pattern, yet `strconv.ParseFloat` fails with a range error (its
value `10 ^ 309` exceeds `float64`'s range), so the recovered 400 branch
of `latLonContext` fires on a request routed through the weather route's
pattern, before any upstream call and without storing any value. -/
theorem pattern_match_parsefloat_range_error_400 :
    matchesCoordPattern overflowSeg = true ∧
    goParseFloat overflowSeg = .error .outOfRange ∧
    weatherRoute overflowSeg "1.0" .netErr 0 = ⟨400, "Bad Request\n", false⟩ := by
  have hm : matchesCoordPattern overflowSeg = true := by decide
  have hm2 : matchesCoordPattern "1.0" = true := by decide
  have hr : readFloat overflowSeg = some (1000000000000000000000000000000000000000000000000000000000000000000000000000000000000000000000000000000000000000000000000000000000000000000000000000000000000000000000000000000000000000000000000000000000000000000000000000000000000000000000000000000000000000000000000000000000000000000000000000000000000000000000, 0) := by decide
  have hov : decOverflow float64Bound 1000000000000000000000000000000000000000000000000000000000000000000000000000000000000000000000000000000000000000000000000000000000000000000000000000000000000000000000000000000000000000000000000000000000000000000000000000000000000000000000000000000000000000000000000000000000000000000000000000000000000000000000 0 = true := by
    norm_num [decOverflow, float64Bound]
  have hg : goParseFloat overflowSeg = .error .outOfRange := by
    simp [goParseFloat, hr, hov]
  refine ⟨hm, hg, ?_⟩
  simp [weatherRoute, hm, hm2, hg]

/-- C10 (amended): every segment matching the route pattern is
syntactically valid for `strconv.ParseFloat`; a parse failure can only be
a range error for a value outside `float64`'s range (through which the
400 branch is reachable), and whenever the denoted value is in range the
parse succeeds, so lat and lon are then stored in the request context. -/
theorem pattern_match_parsefloat_never_malformed (s : String)
    (h : matchesCoordPattern s = true) :
    goParseFloat s ≠ .error .malformed ∧
    (∀ p : Int × Int, readFloat s = some p →
      decOverflow float64Bound p.1 p.2 = false →
      decUnderflow 1075 p.1 p.2 = false →
      goParseFloat s = .ok p) := by
  have hs := coordPattern_readFloat_isSome s h
  cases hr : readFloat s with
  | none =>
      rw [hr] at hs
      exact absurd hs (by simp)
  | some p =>
      constructor
      · simp only [goParseFloat, hr]
        split
        · simp
        · simp
      · intro q hq hov hun
        injection hq with hq
        subst hq
        simp [goParseFloat, hr, hov, hun]

/-- Witness for C10 at the routable segment "40.7". -/
theorem pattern_match_parsefloat_never_malformed_witness :
    goParseFloat "40.7" ≠ .error .malformed ∧ goParseFloat "40.7" = .ok (407, -1) := by
  have h : matchesCoordPattern "40.7" = true := by decide
  have hr : readFloat "40.7" = some (407, -1) := rfl
  have hov : decOverflow float64Bound 407 (-1) = false := by
    norm_num [decOverflow, float64Bound]
  have hun : decUnderflow 1075 407 (-1) = false := by
    norm_num [decUnderflow]
  exact ⟨(pattern_match_parsefloat_never_malformed "40.7" h).1,
         (pattern_match_parsefloat_never_malformed "40.7" h).2 (407, -1) hr hov hun⟩
